import Mathlib

/-!
Verification of the metric buffering and delivery subsystem of
`pkg/monitoring` (files `cloudwatch.go`, `config.go`, and the shared
`internal/constants` package), as a shallow embedding in Lean.

Modelling conventions:
* Go `string` is Lean `String`; Go `int` is Lean `Int` where the source
  relies on signedness (`MetricBufferSize`), `Nat` otherwise.
* `float64` metric values are modelled as `Int`: every value the package
  ever submits is `1.0`, a millisecond count, or a token count, and no
  claim involves value arithmetic.
* `time.Time` timestamps are an abstract `Nat` passed in by the caller
  (the source calls `time.Now()`).
* Go `error` results are `Option String` (`none` = nil error); the
  CloudWatch sink `client.PutMetricData` is an explicit parameter
  `send : List MetricDatum → Option String`.
* Lock-protected mutation is embedded as sequential state passing: the
  single `bufferMutex` serializes every buffer access, so the behaviour
  of the subsystem is a sequence of atomic buffer operations.
* Go `map[string]string` values are association lists; Go map iteration
  order is unspecified, the embedding fixes the list order.  Go maps
  have pairwise distinct keys, stated as a `Nodup` hypothesis where it
  matters.
-/

namespace Genkit

/-! ### internal/constants (src/unnamed/part_000) -/

/-- `constants.DefaultNamespace = "GenKit/AWS"`. -/
def DefaultNamespace : String := "GenKit/AWS"

/-- `constants.DefaultBufferSize = 20`. -/
def DefaultBufferSize : Int := 20

/-- `constants.MaxMetricsPerRequest = 20`. -/
def MaxMetricsPerRequest : Nat := 20

/-- Local constant in `flushMetrics`:
`const maxMetricsPerRequest = constants.MaxMetricsPerRequest`. -/
def maxMetricsPerRequest : Nat := MaxMetricsPerRequest

/-! ### Data model (`types.Dimension`, `types.MetricDatum`) -/

/-- `types.Dimension`: a name/value pair attached to a metric point. -/
structure Dimension where
  name : String
  value : String
deriving DecidableEq, Repr

/-- `types.MetricDatum` as populated by `putMetric`: name, value,
timestamp and dimensions (the constant `Unit: Count` field is omitted,
the source never varies it). -/
structure MetricDatum where
  metricName : String
  value : Int
  timestamp : Nat
  dimensions : List Dimension
deriving DecidableEq, Repr

/-! ### Config (`pkg/monitoring/config.go`) -/

/-- `monitoring.Config`. -/
structure Config where
  Namespace : String
  EnableFlowMetrics : Bool
  EnableModelMetrics : Bool
  EnableXRayTracing : Bool
  CustomDimensions : List (String × String)
  MetricBufferSize : Int
deriving DecidableEq, Repr

/-- `Config.Validate` (config.go lines 34-44): `some msg` models a
non-nil Go error. -/
def Validate (c : Config) : Option String :=
  if c.Namespace = "" then some "namespace is required"
  else if c.MetricBufferSize < 0 then some "metric_buffer_size must be non-negative"
  else none

/-- `Config.SetDefaults` (config.go lines 47-69). -/
def SetDefaults (c : Config) : Config :=
  let c := if c.Namespace = "" then { c with Namespace := DefaultNamespace } else c
  let c :=
    if !c.EnableFlowMetrics && !c.EnableModelMetrics && !c.EnableXRayTracing then
      { c with EnableFlowMetrics := true, EnableModelMetrics := true }
    else if c.EnableXRayTracing && !c.EnableFlowMetrics && !c.EnableModelMetrics then
      { c with EnableFlowMetrics := true, EnableModelMetrics := true }
    else c
  let c := if c.MetricBufferSize = 0 then { c with MetricBufferSize := DefaultBufferSize } else c
  c

/-! ### Error classifier (`getErrorType`, `contains`, cloudwatch.go 225-251) -/

/-- Character-level lowercasing of `strings.ToLower` (the keywords and
examples involved are ASCII, where Go and `Char.toLower` agree). -/
def toLower (s : String) : String := ⟨s.data.map Char.toLower⟩

/-- Substring test on character lists: some suffix of `s` starts with
`sub` (the contract of Go `strings.Contains`). -/
def containsChars (sub : List Char) : List Char → Bool
  | [] => sub.isEmpty
  | c :: t => sub.isPrefixOf (c :: t) || containsChars sub t

/-- `contains(s, substr)` (cloudwatch.go 249-251): case-insensitive
substring check. -/
def contains (s substr : String) : Bool :=
  containsChars (toLower substr).data (toLower s).data

/-- `getErrorType(err)` (cloudwatch.go 225-246); a Go `error` is
`Option String` carrying `err.Error()`. -/
def getErrorType : Option String → String
  | none => "Unknown"
  | some errStr =>
    if contains errStr "timeout" then "Timeout"
    else if contains errStr "connection" then "Connection"
    else if contains errStr "auth" then "Authentication"
    else if contains errStr "throttle" then "Throttling"
    else if contains errStr "rate" then "RateLimit"
    else "GenericError"

/-! ### CloudWatch instance and constructor (cloudwatch.go 19-58) -/

/-- The `CloudWatch` struct (cloudwatch.go 20-30).  The Go field
`namespace` is `cwNamespace` (`namespace` is a Lean keyword); `running`
models "the ticker has started and `flushLoop` is live and `stopCh` is
open" (Running), versus stopped after `Close`. -/
structure CloudWatch where
  cwNamespace : String
  config : Config
  metricBuffer : List MetricDatum
  running : Bool
deriving DecidableEq, Repr

/-- `NewCloudWatch` (cloudwatch.go 33-49): applies `SetDefaults`, builds
the instance with an empty buffer, starts the ticker and the flush
goroutine, and unconditionally returns `(cw, nil)`. -/
def NewCloudWatch (config : Config) : Except String CloudWatch :=
  let cfg := SetDefaults config
  Except.ok
    { cwNamespace := cfg.Namespace
      config := cfg
      metricBuffer := []
      running := true }

/-! ### putMetric and the emit handlers (cloudwatch.go 61-146) -/

/-- Result of `putMetric`: the new buffer, and whether the
threshold-crossing branch fired (the `go flushMetrics` spawn at
cloudwatch.go 138-145). -/
structure PutResult where
  buffer : List MetricDatum
  flushSignal : Bool
deriving DecidableEq, Repr

/-- `putMetric` (cloudwatch.go 123-146): builds the datum, appends it to
the buffer under the lock, and signals an asynchronous flush when the
buffer length reaches `MetricBufferSize`.  No validation of any kind is
performed on `metricName`. -/
def putMetric (cfg : Config) (buffer : List MetricDatum) (now : Nat)
    (metricName : String) (value : Int) (dimensions : List Dimension) : PutResult :=
  let metric : MetricDatum :=
    { metricName := metricName, value := value, timestamp := now, dimensions := dimensions }
  let buffer := buffer ++ [metric]
  { buffer := buffer, flushSignal := decide ((buffer.length : Int) ≥ cfg.MetricBufferSize) }

/-- `buildDimensions` (cloudwatch.go 202-222): custom dimensions first,
then the call-specific dimensions, with no key de-duplication. -/
def buildDimensions (cfg : Config) (dimensions : List (String × String)) : List Dimension :=
  cfg.CustomDimensions.map (fun p => { name := p.1, value := p.2 }) ++
    dimensions.map (fun p => { name := p.1, value := p.2 })

/-- `OnFlowStart` (cloudwatch.go 61-71). -/
def OnFlowStart (cw : CloudWatch) (now : Nat) (flowName : String) : CloudWatch :=
  if !cw.config.EnableFlowMetrics then cw
  else
    let dimensions := buildDimensions cw.config [("FlowName", flowName)]
    { cw with
        metricBuffer := (putMetric cw.config cw.metricBuffer now "FlowStarted" 1 dimensions).buffer }

/-- `OnFlowEnd` (cloudwatch.go 74-89); `durationMs` is
`duration.Milliseconds()`. -/
def OnFlowEnd (cw : CloudWatch) (now : Nat) (flowName : String) (durationMs : Int) : CloudWatch :=
  if !cw.config.EnableFlowMetrics then cw
  else
    let dimensions := buildDimensions cw.config [("FlowName", flowName), ("Status", "Success")]
    let b1 := (putMetric cw.config cw.metricBuffer now "FlowCompleted" 1 dimensions).buffer
    let b2 := (putMetric cw.config b1 now "FlowDuration" durationMs dimensions).buffer
    { cw with metricBuffer := b2 }

/-- `OnFlowError` (cloudwatch.go 92-105). -/
def OnFlowError (cw : CloudWatch) (now : Nat) (flowName : String) (durationMs : Int)
    (err : Option String) : CloudWatch :=
  if !cw.config.EnableFlowMetrics then cw
  else
    let dimensions := buildDimensions cw.config
      [("FlowName", flowName), ("Status", "Error"), ("ErrorType", getErrorType err)]
    let b1 := (putMetric cw.config cw.metricBuffer now "FlowError" 1 dimensions).buffer
    let b2 := (putMetric cw.config b1 now "FlowDuration" durationMs dimensions).buffer
    { cw with metricBuffer := b2 }

/-- `OnGenerate` (cloudwatch.go 108-120). -/
def OnGenerate (cw : CloudWatch) (now : Nat) (modelID : String) (tokensUsed : Int)
    (durationMs : Int) : CloudWatch :=
  if !cw.config.EnableModelMetrics then cw
  else
    let dimensions := buildDimensions cw.config [("ModelID", modelID)]
    let b1 := (putMetric cw.config cw.metricBuffer now "TokensUsed" tokensUsed dimensions).buffer
    let b2 := (putMetric cw.config b1 now "GenerationDuration" durationMs dimensions).buffer
    let b3 := (putMetric cw.config b2 now "GenerationCount" 1 dimensions).buffer
    { cw with metricBuffer := b3 }

/-! ### Flush (cloudwatch.go 164-199) -/

/-- Batch partition implemented by the `for i := 0; i < len; i += max`
loop of `flushMetrics`: consecutive slices of at most
`maxMetricsPerRequest` elements.  Structural recursion on a fuel
argument (instantiated with the list length, an upper bound on the
iteration count) keeps the definition kernel-reducible. -/
def chunksOfF (fuel : Nat) : List α → List (List α)
  | [] => []
  | x :: xs =>
    match fuel with
    | 0 => []
    | fuel + 1 =>
      (x :: xs).take maxMetricsPerRequest ::
        chunksOfF fuel ((x :: xs).drop maxMetricsPerRequest)

/-- The batch partition of a point sequence. -/
def chunksOf (l : List α) : List (List α) := chunksOfF l.length l

/-- Outcome of one flush pass: the live buffer after the pass, the
batches handed to `client.PutMetricData` in order, and the returned
error. -/
structure FlushResult where
  buffer : List MetricDatum
  calls : List (List MetricDatum)
  err : Option String
deriving DecidableEq, Repr

/-- The send loop of `flushMetrics` (cloudwatch.go 178-196), started on
the swapped-out points with the live buffer already reset to `[]`: send
each batch; on the first failure re-append exactly that batch to the
(empty) live buffer and return the error, leaving later batches
unattempted; on total success return nil with an empty buffer. -/
def sendBatchesF (send : List MetricDatum → Option String) (fuel : Nat) :
    List MetricDatum → FlushResult
  | [] => { buffer := [], calls := [], err := none }
  | x :: xs =>
    match fuel with
    | 0 => { buffer := [], calls := [], err := none }
    | fuel + 1 =>
      let batch := (x :: xs).take maxMetricsPerRequest
      match send batch with
      | some e => { buffer := batch, calls := [batch], err := some e }
      | none =>
        let r := sendBatchesF send fuel ((x :: xs).drop maxMetricsPerRequest)
        { buffer := r.buffer, calls := batch :: r.calls, err := r.err }

/-- The send loop on the swapped-out points (fuel instantiated with the
list length, an upper bound on the iteration count). -/
def sendBatches (send : List MetricDatum → Option String)
    (l : List MetricDatum) : FlushResult :=
  sendBatchesF send l.length l

/-- `flushMetrics` (cloudwatch.go 164-199): swap the buffer out under
the lock (leaving it empty), return nil immediately when nothing was
buffered, otherwise run the batch send loop. -/
def flushMetrics (send : List MetricDatum → Option String)
    (buffer : List MetricDatum) : FlushResult :=
  let metricsToSend := buffer
  if metricsToSend.isEmpty then { buffer := [], calls := [], err := none }
  else sendBatches send metricsToSend

/-- Result of `Close`: the stopped instance (with the post-flush
buffer), the sink calls made, and the returned error. -/
structure CloseResult where
  cw : CloudWatch
  calls : List (List MetricDatum)
  err : Option String
deriving DecidableEq, Repr

/-- `Close` (cloudwatch.go 52-58): close `stopCh`, stop the ticker
(leaving Running), then one synchronous `flushMetrics` pass whose error
is returned. -/
def Close (send : List MetricDatum → Option String) (cw : CloudWatch) : CloseResult :=
  let r := flushMetrics send cw.metricBuffer
  { cw := { cw with running := false, metricBuffer := r.buffer }
    calls := r.calls
    err := r.err }

/-! ### Serialized buffer history (the `bufferMutex` discipline)

Every access to `metricBuffer` is under `bufferMutex`, so a concurrent
execution is some interleaving of two atomic operations on the buffer:
the append of `putMetric` (line 135) and the swap of `flushMetrics`
(lines 165-169).  `runBuf` replays such a serialized history. -/

/-- One serialized buffer operation. -/
inductive BufOp where
  | submit (p : MetricDatum)
  | swap
deriving DecidableEq, Repr

/-- Buffer-history state: the live buffer, and each swap's output in
order. -/
structure BufTraceState where
  buffer : List MetricDatum
  outputs : List (List MetricDatum)
deriving DecidableEq, Repr

/-- One atomic buffer operation: `submit` is the append of `putMetric`
line 135; `swap` is lines 166-168 of `flushMetrics` (capture the buffer,
reset it to empty, record the captured sequence). -/
def stepBuf (s : BufTraceState) : BufOp → BufTraceState
  | .submit p => { s with buffer := s.buffer ++ [p] }
  | .swap => { buffer := [], outputs := s.outputs ++ [s.buffer] }

/-- Replay a serialized history from the empty buffer a fresh
`NewCloudWatch` instance starts with. -/
def runBuf (ops : List BufOp) : BufTraceState :=
  ops.foldl stepBuf { buffer := [], outputs := [] }

/-- All points submitted by a history, in submission order. -/
def submittedPoints (ops : List BufOp) : List MetricDatum :=
  ops.filterMap fun op => match op with
    | .submit p => some p
    | .swap => none

/-! ### Lemmas about the batch partition -/
/-- The fuel argument of `chunksOfF` is irrelevant once it dominates the
list length. -/
theorem chunksOfF_congr (fuel₁ : Nat) (fuel₂ : Nat) (l : List α)
    (h₁ : l.length ≤ fuel₁) (h₂ : l.length ≤ fuel₂) :
    chunksOfF fuel₁ l = chunksOfF fuel₂ l := by
  induction fuel₁ generalizing fuel₂ l with
  | zero =>
    cases l with
    | nil => cases fuel₂ <;> rfl
    | cons x xs => simp at h₁
  | succ fuel ih =>
    cases l with
    | nil => cases fuel₂ <;> rfl
    | cons x xs =>
      cases fuel₂ with
      | zero => simp at h₂
      | succ fuel₂ =>
        simp only [chunksOfF]
        congr 1
        apply ih
        · simp only [List.length_drop, List.length_cons,
            maxMetricsPerRequest, MaxMetricsPerRequest] at *
          omega
        · simp only [List.length_drop, List.length_cons,
            maxMetricsPerRequest, MaxMetricsPerRequest] at *
          omega

theorem chunksOf_nil : chunksOf ([] : List α) = [] := rfl

/-- One unfolding step of the partition. -/
theorem chunksOf_cons (x : α) (xs : List α) :
    chunksOf (x :: xs) =
      (x :: xs).take maxMetricsPerRequest ::
        chunksOf ((x :: xs).drop maxMetricsPerRequest) := by
  show chunksOfF (x :: xs).length (x :: xs) = _
  simp only [List.length_cons, chunksOfF]
  congr 1
  apply chunksOfF_congr
  · simp only [List.length_drop, List.length_cons]
    simp only [maxMetricsPerRequest, MaxMetricsPerRequest]
    omega
  · exact Nat.le_refl _

/-- The fuel argument of `sendBatchesF` is irrelevant once it dominates
the list length. -/
theorem sendBatchesF_congr (send : List MetricDatum → Option String)
    (fuel₁ : Nat) (fuel₂ : Nat) (l : List MetricDatum)
    (h₁ : l.length ≤ fuel₁) (h₂ : l.length ≤ fuel₂) :
    sendBatchesF send fuel₁ l = sendBatchesF send fuel₂ l := by
  induction fuel₁ generalizing fuel₂ l with
  | zero =>
    cases l with
    | nil => cases fuel₂ <;> rfl
    | cons x xs => simp at h₁
  | succ fuel ih =>
    cases l with
    | nil => cases fuel₂ <;> rfl
    | cons x xs =>
      cases fuel₂ with
      | zero => simp at h₂
      | succ fuel₂ =>
        simp only [sendBatchesF]
        cases hsend : send ((x :: xs).take maxMetricsPerRequest) with
        | some e => rfl
        | none =>
          have hrec : sendBatchesF send fuel ((x :: xs).drop maxMetricsPerRequest) =
              sendBatchesF send fuel₂ ((x :: xs).drop maxMetricsPerRequest) := by
            apply ih
            · simp only [List.length_drop, List.length_cons,
                maxMetricsPerRequest, MaxMetricsPerRequest] at *
              omega
            · simp only [List.length_drop, List.length_cons,
                maxMetricsPerRequest, MaxMetricsPerRequest] at *
              omega
          rw [hrec]

/-- Unfolding step of the send loop when the first batch is rejected:
exactly that batch becomes the new buffer and the loop stops. -/
theorem sendBatches_fail (send : List MetricDatum → Option String)
    (x : MetricDatum) (xs : List MetricDatum) (e : String)
    (h : send ((x :: xs).take maxMetricsPerRequest) = some e) :
    (sendBatches send (x :: xs)).buffer = (x :: xs).take maxMetricsPerRequest ∧
    (sendBatches send (x :: xs)).calls = [(x :: xs).take maxMetricsPerRequest] ∧
    (sendBatches send (x :: xs)).err = some e := by
  show (sendBatchesF send (x :: xs).length (x :: xs)).buffer = _ ∧
    (sendBatchesF send (x :: xs).length (x :: xs)).calls = _ ∧
    (sendBatchesF send (x :: xs).length (x :: xs)).err = _
  simp only [List.length_cons, sendBatchesF, h]
  exact ⟨trivial, trivial, trivial⟩

/-- Unfolding step of the send loop when the first batch is accepted:
the loop recurses on the remaining points. -/
theorem sendBatches_ok (send : List MetricDatum → Option String)
    (x : MetricDatum) (xs : List MetricDatum)
    (h : send ((x :: xs).take maxMetricsPerRequest) = none) :
    (sendBatches send (x :: xs)).buffer =
      (sendBatches send ((x :: xs).drop maxMetricsPerRequest)).buffer ∧
    (sendBatches send (x :: xs)).calls =
      (x :: xs).take maxMetricsPerRequest ::
        (sendBatches send ((x :: xs).drop maxMetricsPerRequest)).calls ∧
    (sendBatches send (x :: xs)).err =
      (sendBatches send ((x :: xs).drop maxMetricsPerRequest)).err := by
  have hrec : sendBatchesF send xs.length ((x :: xs).drop maxMetricsPerRequest) =
      sendBatchesF send ((x :: xs).drop maxMetricsPerRequest).length
        ((x :: xs).drop maxMetricsPerRequest) := by
    apply sendBatchesF_congr
    · simp only [List.length_drop, List.length_cons]
      simp only [maxMetricsPerRequest, MaxMetricsPerRequest]
      omega
    · exact Nat.le_refl _
  show (sendBatchesF send (x :: xs).length (x :: xs)).buffer = _ ∧
    (sendBatchesF send (x :: xs).length (x :: xs)).calls = _ ∧
    (sendBatchesF send (x :: xs).length (x :: xs)).err = _
  simp only [List.length_cons, sendBatchesF, h, hrec]
  exact ⟨rfl, rfl, rfl⟩

/-- Induction along the batch decomposition: peel one batch of up to
`maxMetricsPerRequest` points at a time. -/
theorem batchList_induction {α : Type _} {motive : List α → Prop} (h0 : motive [])
    (h1 : ∀ x xs, motive ((x :: xs).drop maxMetricsPerRequest) → motive (x :: xs)) :
    ∀ l, motive l := by
  intro l
  generalize hn : l.length = n
  induction n using Nat.strong_induction_on generalizing l with
  | _ n ih =>
    cases l with
    | nil => exact h0
    | cons x xs =>
      apply h1
      apply ih ((x :: xs).drop maxMetricsPerRequest).length _ _ rfl
      subst hn
      simp only [List.length_drop, List.length_cons]
      simp only [maxMetricsPerRequest, MaxMetricsPerRequest]
      omega

theorem chunksOf_join (l : List α) : (chunksOf l).join = l := by
  induction l using batchList_induction with
  | h0 => rfl
  | h1 x xs ih =>
    rw [chunksOf_cons]
    simp only [List.join_cons, ih, List.take_append_drop]

theorem chunksOf_length (l : List α) :
    (chunksOf l).length =
      (l.length + (maxMetricsPerRequest - 1)) / maxMetricsPerRequest := by
  induction l using batchList_induction with
  | h0 => simp [chunksOf_nil, maxMetricsPerRequest, MaxMetricsPerRequest]
  | h1 x xs ih =>
    rw [chunksOf_cons]
    simp only [List.length_cons, ih, List.length_drop] at *
    simp only [maxMetricsPerRequest, MaxMetricsPerRequest] at *
    omega

theorem chunksOf_mem_bounds {l c : List α} (hc : c ∈ chunksOf l) :
    c.length ≤ maxMetricsPerRequest ∧ c ≠ [] := by
  induction l using batchList_induction with
  | h0 => simp [chunksOf_nil] at hc
  | h1 x xs ih =>
    rw [chunksOf_cons] at hc
    rcases List.mem_cons.mp hc with h | h
    · subst h
      constructor
      · simpa using List.length_take_le _ _
      · intro hnil
        have hlen := congrArg List.length hnil
        simp only [List.length_take, List.length_cons, List.length_nil,
          maxMetricsPerRequest, MaxMetricsPerRequest] at hlen
        omega
    · exact ih h

theorem chunksOf_get? (l : List α) (k : Nat) (c : List α)
    (h : (chunksOf l).get? k = some c) :
    c = (l.drop (maxMetricsPerRequest * k)).take maxMetricsPerRequest := by
  induction l using batchList_induction generalizing k c with
  | h0 => simp [chunksOf_nil] at h
  | h1 x xs ih =>
    rw [chunksOf_cons] at h
    cases k with
    | zero =>
      simp only [List.get?_cons_zero, Option.some.injEq] at h
      simpa [Nat.mul_zero] using h.symm
    | succ k =>
      simp only [List.get?_cons_succ] at h
      rw [ih k c h, List.drop_drop]
      have hmul : maxMetricsPerRequest + maxMetricsPerRequest * k =
          maxMetricsPerRequest * (k + 1) := by ring
      rw [hmul]

theorem chunksOf_take_join (l : List α) (k : Nat) :
    ((chunksOf l).take k).join = l.take (maxMetricsPerRequest * k) := by
  induction l using batchList_induction generalizing k with
  | h0 => simp [chunksOf_nil]
  | h1 x xs ih =>
    cases k with
    | zero => simp
    | succ k =>
      rw [chunksOf_cons]
      simp only [List.take_succ_cons, List.join_cons, ih]
      have hmul : maxMetricsPerRequest * (k + 1) =
          maxMetricsPerRequest + maxMetricsPerRequest * k := by ring
      rw [hmul, List.take_add]

/-! ### The send loop specification -/

/-- Complete behaviour of the `flushMetrics` send loop: on success every
chunk was sent and accepted and the buffer ends empty; on failure the
calls are the chunks up to and including the first failing one, that
failing chunk is re-appended as the new buffer, every earlier chunk was
accepted, and no later chunk was attempted. -/
theorem sendBatches_spec (send : List MetricDatum → Option String) (l : List MetricDatum) :
    ((sendBatches send l).err = none →
      (sendBatches send l).buffer = [] ∧
      (sendBatches send l).calls = chunksOf l ∧
      ∀ c ∈ (sendBatches send l).calls, send c = none) ∧
    (∀ e, (sendBatches send l).err = some e →
      ∃ k, (sendBatches send l).calls =
            (chunksOf l).take k ++ [(sendBatches send l).buffer] ∧
        (chunksOf l).get? k = some (sendBatches send l).buffer ∧
        (∀ c ∈ (chunksOf l).take k, send c = none) ∧
        send (sendBatches send l).buffer = some e) := by
  induction l using batchList_induction with
  | h0 =>
    constructor
    · intro _
      exact ⟨rfl, rfl, by intro c hc; simp [sendBatches, sendBatchesF] at hc⟩
    · intro e he
      simp [sendBatches, sendBatchesF] at he
  | h1 x xs ih =>
    cases hsend : send ((x :: xs).take maxMetricsPerRequest) with
    | some e =>
      obtain ⟨hb, hc, he⟩ := sendBatches_fail send x xs e hsend
      constructor
      · intro h
        rw [he] at h
        exact Option.noConfusion h
      · intro e' he'
        rw [he, Option.some.injEq] at he'
        subst he'
        refine ⟨0, ?_, ?_, by simp, by rw [hb]; exact hsend⟩
        · rw [hb, hc]
          simp
        · rw [hb, chunksOf_cons]
          rfl
    | none =>
      obtain ⟨hb, hc, he⟩ := sendBatches_ok send x xs hsend
      constructor
      · intro herr
        rw [he] at herr
        obtain ⟨ihb, ihc, ihall⟩ := ih.1 herr
        refine ⟨by rw [hb, ihb], ?_, ?_⟩
        · rw [hc, ihc, chunksOf_cons]
        · intro c hcmem
          rw [hc] at hcmem
          rcases List.mem_cons.mp hcmem with h | h
          · subst h; exact hsend
          · exact ihall c h
      · intro e' he'
        rw [he] at he'
        obtain ⟨k, h1, h2, h3, h4⟩ := ih.2 e' he'
        refine ⟨k + 1, ?_, ?_, ?_, by rw [hb]; exact h4⟩
        · rw [hc, hb, chunksOf_cons, List.take_succ_cons, List.cons_append, h1]
        · rw [hb, chunksOf_cons, List.get?_cons_succ]
          exact h2
        · intro c hcmem
          rw [chunksOf_cons, List.take_succ_cons] at hcmem
          rcases List.mem_cons.mp hcmem with h | h
          · subst h; exact hsend
          · exact h3 c h

/-- `flushMetrics` and its send loop agree (the empty-buffer early
return coincides with the loop's base case). -/
theorem flushMetrics_eq_sendBatches (send : List MetricDatum → Option String)
    (l : List MetricDatum) : flushMetrics send l = sendBatches send l := by
  cases l with
  | nil => rfl
  | cons x xs => simp [flushMetrics]

/-! ### Serialized-history invariant -/

/-- Fold invariant for serialized buffer histories: the swap outputs
plus the live buffer are exactly the initial contents followed by every
submitted point, in order. -/
theorem foldl_stepBuf_invariant (ops : List BufOp) (s : BufTraceState) :
    (ops.foldl stepBuf s).outputs.join ++ (ops.foldl stepBuf s).buffer =
      s.outputs.join ++ (s.buffer ++ submittedPoints ops) := by
  induction ops generalizing s with
  | nil => simp [submittedPoints]
  | cons op ops ih =>
    cases op with
    | submit p =>
      rw [List.foldl_cons]
      rw [ih]
      simp [stepBuf, submittedPoints, List.filterMap_cons]
    | swap =>
      rw [List.foldl_cons]
      rw [ih]
      simp [stepBuf, submittedPoints, List.filterMap_cons, List.join_append]

/-! ### Concrete scenario inputs -/

/-- A sample metric point carrying its submission index as value. -/
def samplePoint (i : Nat) : MetricDatum :=
  { metricName := "m", value := (i : Int), timestamp := 0, dimensions := [] }

/-- 21 sample points: one full batch of 20 plus one extra point. -/
def pts21 : List MetricDatum := (List.range 21).map samplePoint

/-- A sink that rejects exactly full batches of 20 points (so the first
chunk of `pts21` fails and the second, of length 1, would succeed). -/
def failFirst : List MetricDatum → Option String :=
  fun batch => if batch.length = 20 then some "boom" else none

/-- A sink that accepts every batch. -/
def alwaysOk : List MetricDatum → Option String := fun _ => none

/-- A configuration with an empty namespace and all other fields zero,
as a concrete construction input. -/
def emptyNamespaceConfig : Config :=
  { Namespace := ""
    EnableFlowMetrics := false
    EnableModelMetrics := false
    EnableXRayTracing := false
    CustomDimensions := []
    MetricBufferSize := 0 }

/-- A configuration whose custom dimension key `FlowName` collides with
the call-specific `FlowName` dimension of `OnFlowStart`. -/
def dupKeyConfig : Config :=
  { Namespace := "GenKit/AWS"
    EnableFlowMetrics := true
    EnableModelMetrics := true
    EnableXRayTracing := false
    CustomDimensions := [("FlowName", "prod")]
    MetricBufferSize := 20 }

/-- A running instance configured with `dupKeyConfig`. -/
def cwDup : CloudWatch :=
  { cwNamespace := "GenKit/AWS", config := dupKeyConfig, metricBuffer := [], running := true }

/-- A configuration whose custom dimension key is disjoint from every
call-specific key. -/
def envConfig : Config :=
  { Namespace := "GenKit/AWS"
    EnableFlowMetrics := true
    EnableModelMetrics := true
    EnableXRayTracing := false
    CustomDimensions := [("Environment", "prod")]
    MetricBufferSize := 20 }

/-- A running instance with both metric families disabled (reachable by
building the struct directly; `SetDefaults` is not involved). -/
def cwFlagsOff : CloudWatch :=
  { cwNamespace := "GenKit/AWS"
    config :=
      { Namespace := "GenKit/AWS"
        EnableFlowMetrics := false
        EnableModelMetrics := false
        EnableXRayTracing := true
        CustomDimensions := []
        MetricBufferSize := 20 }
    metricBuffer := []
    running := true }

/-- A running instance with an empty buffer. -/
def cwEmpty : CloudWatch :=
  { cwNamespace := "GenKit/AWS"
    config := SetDefaults emptyNamespaceConfig
    metricBuffer := []
    running := true }

/-- `SetDefaults` replaces an empty namespace by the default one, and
never touches the namespace otherwise than through that first branch. -/
theorem SetDefaults_Namespace_of_empty (c : Config) (h : c.Namespace = "") :
    (SetDefaults c).Namespace = DefaultNamespace := by
  obtain ⟨ns, f1, f2, f3, cd, mbs⟩ := c
  simp only at h
  subst h
  simp only [SetDefaults]
  split_ifs <;> rfl

/-! ### Claim theorems -/

/-- C1 (counterexample): with 21 buffered points and a sink that rejects
the first chunk, the flush makes exactly one sink call and never
attempts the remaining chunk (`samplePoint 20` appears in no call),
refuting "the flush continues attempting all remaining chunks rather
than aborting": under the claim there would be 2 calls, one per chunk. -/
theorem c1_counterexample :
    (flushMetrics failFirst pts21).err = some "boom" ∧
    (flushMetrics failFirst pts21).calls = [pts21.take 20] ∧
    (chunksOf pts21).length = 2 ∧
    ∀ c ∈ (flushMetrics failFirst pts21).calls, samplePoint 20 ∉ c := by
  refine ⟨by decide, by decide, by decide, by decide⟩

/-- C1 (amended): when a sink send fails during a flush pass, exactly
the first failing chunk's points (and no others) are re-appended to the
live buffer in their relative order, every earlier chunk was sent and
accepted, the pass returns that chunk's error immediately, and no later
chunk is attempted (the calls end at the failing chunk). -/
theorem c1_failed_chunk_requeued_flush_aborts
    (send : List MetricDatum → Option String) (l : List MetricDatum) (e : String)
    (h : (flushMetrics send l).err = some e) :
    ∃ k, (chunksOf l).get? k = some (flushMetrics send l).buffer ∧
      send (flushMetrics send l).buffer = some e ∧
      (flushMetrics send l).calls = (chunksOf l).take k ++ [(flushMetrics send l).buffer] ∧
      (∀ c ∈ (chunksOf l).take k, send c = none) := by
  rw [flushMetrics_eq_sendBatches] at h ⊢
  obtain ⟨k, h1, h2, h3, h4⟩ := (sendBatches_spec send l).2 e h
  exact ⟨k, h2, h4, h1, h3⟩

/-- C1 witness: the amended theorem applied to the 21-point scenario
with a sink failing on the first chunk. -/
theorem c1_witness :
    (flushMetrics failFirst pts21).err = some "boom" ∧
    ∃ k, (chunksOf pts21).get? k = some (flushMetrics failFirst pts21).buffer ∧
      failFirst (flushMetrics failFirst pts21).buffer = some "boom" ∧
      (flushMetrics failFirst pts21).calls =
        (chunksOf pts21).take k ++ [(flushMetrics failFirst pts21).buffer] ∧
      (∀ c ∈ (chunksOf pts21).take k, failFirst c = none) :=
  ⟨by decide, c1_failed_chunk_requeued_flush_aborts failFirst pts21 "boom" (by decide)⟩

/-- C2 (counterexample): `samplePoint 20` is taken by the flush pass
(it is among the swapped-out points) yet afterwards it is neither in the
live buffer nor in any sink call — it is dropped without any delivery
attempt, refuting "each taken point is either confirmed delivered or
present again in the live buffer". -/
theorem c2_counterexample :
    samplePoint 20 ∈ pts21 ∧
    (flushMetrics failFirst pts21).buffer = pts21.take 20 ∧
    (flushMetrics failFirst pts21).calls = [pts21.take 20] ∧
    samplePoint 20 ∉ (flushMetrics failFirst pts21).buffer ∧
    (∀ c ∈ (flushMetrics failFirst pts21).calls, samplePoint 20 ∉ c) := by
  refine ⟨by decide, by decide, by decide, by decide, by decide⟩

/-- C2 (amended): on a fully successful pass every taken point is
delivered (the accepted calls concatenate to the input and the buffer
ends empty); on a failing pass the input splits into the delivered
points (successful calls, in order), the re-buffered failing chunk, and
a dropped tail — the points in chunks after the first failing chunk are
neither delivered nor returned to the buffer. -/
theorem c2_taken_points_partition
    (send : List MetricDatum → Option String) (l : List MetricDatum) :
    ((flushMetrics send l).err = none →
      (flushMetrics send l).buffer = [] ∧
      (flushMetrics send l).calls.join = l ∧
      ∀ c ∈ (flushMetrics send l).calls, send c = none) ∧
    (∀ e, (flushMetrics send l).err = some e →
      ∃ k, l = ((flushMetrics send l).calls.dropLast).join ++
            (flushMetrics send l).buffer ++
            l.drop (maxMetricsPerRequest * (k + 1)) ∧
        ((flushMetrics send l).calls.dropLast).join =
          l.take (maxMetricsPerRequest * k) ∧
        (∀ c ∈ (flushMetrics send l).calls.dropLast, send c = none) ∧
        send (flushMetrics send l).buffer = some e) := by
  rw [flushMetrics_eq_sendBatches]
  constructor
  · intro herr
    obtain ⟨hb, hc, hall⟩ := (sendBatches_spec send l).1 herr
    exact ⟨hb, by rw [hc, chunksOf_join], hall⟩
  · intro e herr
    obtain ⟨k, h1, h2, h3, h4⟩ := (sendBatches_spec send l).2 e herr
    have hdrop : ((sendBatches send l).calls).dropLast = (chunksOf l).take k := by
      rw [h1, List.dropLast_concat]
    have hjoin : (((sendBatches send l).calls).dropLast).join =
        l.take (maxMetricsPerRequest * k) := by
      rw [hdrop, chunksOf_take_join]
    have hbuf : (sendBatches send l).buffer =
        (l.drop (maxMetricsPerRequest * k)).take maxMetricsPerRequest :=
      chunksOf_get? l k _ h2
    refine ⟨k, ?_, hjoin, ?_, h4⟩
    · rw [hjoin, hbuf]
      have hsplit : l = l.take (maxMetricsPerRequest * k) ++
          l.drop (maxMetricsPerRequest * k) := (List.take_append_drop _ l).symm
      have hsplit2 : l.drop (maxMetricsPerRequest * k) =
          (l.drop (maxMetricsPerRequest * k)).take maxMetricsPerRequest ++
            ((l.drop (maxMetricsPerRequest * k)).drop maxMetricsPerRequest) :=
        (List.take_append_drop _ _).symm
      rw [List.drop_drop] at hsplit2
      have hmul : maxMetricsPerRequest * k + maxMetricsPerRequest =
          maxMetricsPerRequest * (k + 1) := by ring
      rw [hmul] at hsplit2
      conv_lhs => rw [hsplit, hsplit2]
      rw [List.append_assoc]
    · intro c hc
      rw [hdrop] at hc
      exact h3 c hc

/-- C2 witness: the amended theorem's failure clause applied to the
21-point scenario with a sink failing on the first chunk. -/
theorem c2_witness :
    (flushMetrics failFirst pts21).err = some "boom" ∧
    ∃ k, pts21 = ((flushMetrics failFirst pts21).calls.dropLast).join ++
          (flushMetrics failFirst pts21).buffer ++
          pts21.drop (maxMetricsPerRequest * (k + 1)) ∧
      ((flushMetrics failFirst pts21).calls.dropLast).join =
        pts21.take (maxMetricsPerRequest * k) ∧
      (∀ c ∈ (flushMetrics failFirst pts21).calls.dropLast, failFirst c = none) ∧
      failFirst (flushMetrics failFirst pts21).buffer = some "boom" :=
  ⟨by decide, (c2_taken_points_partition failFirst pts21).2 "boom" (by decide)⟩

/-- C3 (counterexample): constructing with an empty namespace succeeds —
`NewCloudWatch` returns `ok` with the defaulted namespace `GenKit/AWS`
and a running instance, refuting "construction returns an error and the
subsystem never reaches Running". -/
theorem c3_counterexample :
    NewCloudWatch emptyNamespaceConfig =
      Except.ok
        { cwNamespace := "GenKit/AWS"
          config := SetDefaults emptyNamespaceConfig
          metricBuffer := []
          running := true } ∧
    Validate emptyNamespaceConfig = some "namespace is required" := by
  constructor
  · rfl
  · rfl

/-- C3 (amended): an empty namespace is not rejected at construction:
`SetDefaults` silently replaces it with the default namespace,
`NewCloudWatch` returns success with a running instance (timer and
flush loop started), and the `Validate` check that would reject it is
not invoked by the constructor (it exists, and rejects, only at the
plugin configuration layer). -/
theorem c3_empty_namespace_defaulted_not_rejected (c : Config) (h : c.Namespace = "") :
    NewCloudWatch c =
      Except.ok
        { cwNamespace := DefaultNamespace
          config := SetDefaults c
          metricBuffer := []
          running := true } ∧
    (SetDefaults c).Namespace = DefaultNamespace ∧
    Validate c = some "namespace is required" := by
  refine ⟨?_, SetDefaults_Namespace_of_empty c h, ?_⟩
  · simp only [NewCloudWatch]
    rw [SetDefaults_Namespace_of_empty c h]
  · unfold Validate
    rw [if_pos h]

/-- C3 witness: the amended theorem applied to the concrete
empty-namespace configuration. -/
theorem c3_witness :
    emptyNamespaceConfig.Namespace = "" ∧
    (NewCloudWatch emptyNamespaceConfig =
        Except.ok
          { cwNamespace := DefaultNamespace
            config := SetDefaults emptyNamespaceConfig
            metricBuffer := []
            running := true } ∧
      (SetDefaults emptyNamespaceConfig).Namespace = DefaultNamespace ∧
      Validate emptyNamespaceConfig = some "namespace is required") :=
  ⟨rfl, c3_empty_namespace_defaulted_not_rejected emptyNamespaceConfig rfl⟩

/-- C4 (counterexample): a point with an empty name passes `putMetric`
unhindered and lands in the buffer, refuting "the point never enters the
buffer, the rejection is reported to the caller". -/
theorem c4_counterexample :
    (putMetric emptyNamespaceConfig [] 0 "" 1 []).buffer =
      [{ metricName := "", value := 1, timestamp := 0, dimensions := [] }] := by
  rfl

/-- C4 (amended): `putMetric` performs no validation at the Submit
boundary: for every metric name, the empty string included, the point is
appended to the buffer under the lock, and the only other effect is the
threshold-crossing flush signal; there is no rejection path and
`putMetric` reports nothing to the caller. -/
theorem c4_putMetric_never_validates (cfg : Config) (buffer : List MetricDatum)
    (now : Nat) (metricName : String) (value : Int) (dims : List Dimension) :
    (putMetric cfg buffer now metricName value dims).buffer =
      buffer ++ [{ metricName := metricName, value := value,
                   timestamp := now, dimensions := dims }] ∧
    (putMetric cfg buffer now metricName value dims).flushSignal =
      decide (((buffer.length : Int) + 1) ≥ cfg.MetricBufferSize) := by
  constructor
  · rfl
  · simp [putMetric]

/-- C5: handed the buffered points, a flush against an all-accepting
sink performs exactly the partition's calls: `ceil(N/20)` consecutive
chunks with the protocol maximum of 20, each chunk at most 20 points and
non-empty, concatenating back to the input in submission order. -/
theorem c5_partition_correct (send : List MetricDatum → Option String)
    (l : List MetricDatum) (hs : ∀ b, send b = none) :
    maxMetricsPerRequest = 20 ∧
    (flushMetrics send l).calls = chunksOf l ∧
    (chunksOf l).length =
      (l.length + (maxMetricsPerRequest - 1)) / maxMetricsPerRequest ∧
    (∀ c ∈ chunksOf l, c.length ≤ maxMetricsPerRequest ∧ c ≠ []) ∧
    (chunksOf l).join = l := by
  have herr : (flushMetrics send l).err = none := by
    rw [flushMetrics_eq_sendBatches]
    cases he : (sendBatches send l).err with
    | none => rfl
    | some e =>
      obtain ⟨k, _, _, _, h4⟩ := (sendBatches_spec send l).2 e he
      rw [hs] at h4
      exact Option.noConfusion h4
  rw [flushMetrics_eq_sendBatches] at herr ⊢
  obtain ⟨_, hc, _⟩ := (sendBatches_spec send l).1 herr
  exact ⟨rfl, hc, chunksOf_length l, fun c hcm => chunksOf_mem_bounds hcm, chunksOf_join l⟩

/-- C5 witness: the partition theorem applied to the 21 concrete points
and the all-accepting sink: 2 = ceil(21/20) chunks. -/
theorem c5_witness :
    (∀ b, alwaysOk b = none) ∧
    (maxMetricsPerRequest = 20 ∧
      (flushMetrics alwaysOk pts21).calls = chunksOf pts21 ∧
      (chunksOf pts21).length =
        (pts21.length + (maxMetricsPerRequest - 1)) / maxMetricsPerRequest ∧
      (∀ c ∈ chunksOf pts21, c.length ≤ maxMetricsPerRequest ∧ c ≠ []) ∧
      (chunksOf pts21).join = pts21) :=
  ⟨fun _ => rfl, c5_partition_correct alwaysOk pts21 (fun _ => rfl)⟩

/-- C6: the error classifier is total — nil maps to `Unknown`, every
non-nil error maps into the six categories with first keyword match
winning (an error mentioning both `connection` and `timeout` is
`Timeout`), and the claim's concrete examples hold. -/
theorem c6_error_classifier :
    getErrorType none = "Unknown" ∧
    getErrorType (some "connection refused") = "Connection" ∧
    getErrorType (some "request TIMEOUT") = "Timeout" ∧
    getErrorType (some "banana") = "GenericError" ∧
    getErrorType (some "connection timeout") = "Timeout" ∧
    ∀ e, getErrorType (some e) ∈
      ["Timeout", "Connection", "Authentication", "Throttling", "RateLimit",
        "GenericError"] := by
  refine ⟨rfl, by decide, by decide, by decide, by decide, ?_⟩
  intro e
  simp only [getErrorType]
  split_ifs <;> simp

/-- C7: `Close` stops the instance and performs exactly one synchronous
flush pass, whose calls and error it exposes; on an empty buffer that
pass makes zero sink calls and `Close` returns nil. -/
theorem c7_close_final_flush (send : List MetricDatum → Option String)
    (cw : CloudWatch) :
    (cw.metricBuffer = [] → (Close send cw).calls = [] ∧ (Close send cw).err = none) ∧
    (Close send cw).err = (flushMetrics send cw.metricBuffer).err ∧
    (Close send cw).calls = (flushMetrics send cw.metricBuffer).calls ∧
    (Close send cw).cw.running = false := by
  refine ⟨?_, rfl, rfl, rfl⟩
  intro h
  simp [Close, flushMetrics, h]

/-- C7 witness: `Close` on a concrete running instance with an empty
buffer makes no sink call and returns nil. -/
theorem c7_witness :
    cwEmpty.metricBuffer = [] ∧
    ((Close alwaysOk cwEmpty).calls = [] ∧ (Close alwaysOk cwEmpty).err = none) :=
  ⟨rfl, (c7_close_final_flush alwaysOk cwEmpty).1 rfl⟩

/-- C8: in every serialized buffer history, a swap returns exactly the
sequence the buffer held at that moment and leaves the buffer empty;
and the swap outputs followed by the live buffer concatenate to the
submitted points in order, so every submitted occurrence lands in
exactly one swap output — distinct swaps return disjoint portions of
the submission sequence. -/
theorem c8_swap_atomic_exact_disjoint (ops : List BufOp) :
    (runBuf ops).outputs.join ++ (runBuf ops).buffer = submittedPoints ops ∧
    (stepBuf (runBuf ops) BufOp.swap).buffer = [] ∧
    (stepBuf (runBuf ops) BufOp.swap).outputs =
      (runBuf ops).outputs ++ [(runBuf ops).buffer] := by
  refine ⟨?_, rfl, rfl⟩
  have h := foldl_stepBuf_invariant ops { buffer := [], outputs := [] }
  simpa [runBuf] using h

/-- C9 (counterexample): with a configured custom dimension keyed
`FlowName`, the point emitted by `OnFlowStart` carries the key
`FlowName` twice, refuting "the dimension keys within that point are
pairwise unique ... after the configured custom dimensions are merged
with the call-specific dimensions". -/
theorem c9_counterexample :
    ((OnFlowStart cwDup 0 "myflow").metricBuffer.map
        fun d => d.dimensions.map Dimension.name) = [["FlowName", "FlowName"]] ∧
    ¬ (["FlowName", "FlowName"] : List String).Nodup := by
  constructor
  · rfl
  · decide

/-- C9 (amended): dimension keys within an emitted point are pairwise
unique provided the configured custom dimension keys are themselves
distinct (a Go map guarantees this) and disjoint from the call-specific
keys; with a colliding key the merge duplicates it. -/
theorem c9_dimension_keys_unique_iff_disjoint (cfg : Config)
    (dims : List (String × String))
    (h1 : (cfg.CustomDimensions.map Prod.fst).Nodup)
    (h2 : (dims.map Prod.fst).Nodup)
    (h3 : ∀ k ∈ cfg.CustomDimensions.map Prod.fst, k ∉ dims.map Prod.fst) :
    ((buildDimensions cfg dims).map Dimension.name).Nodup := by
  unfold buildDimensions
  rw [List.map_append, List.map_map, List.map_map]
  have hcomp : (Dimension.name ∘ fun p : String × String =>
      ({ name := p.1, value := p.2 } : Dimension)) = Prod.fst := by
    funext p
    rfl
  rw [hcomp]
  exact List.Nodup.append h1 h2 h3

/-- C9 witness: the amended theorem at a concrete configuration whose
custom key `Environment` is disjoint from the call key `FlowName`. -/
theorem c9_witness :
    ((envConfig.CustomDimensions.map Prod.fst).Nodup ∧
      (([("FlowName", "f")] : List (String × String)).map Prod.fst).Nodup ∧
      (∀ k ∈ envConfig.CustomDimensions.map Prod.fst,
        k ∉ ([("FlowName", "f")] : List (String × String)).map Prod.fst)) ∧
    ((buildDimensions envConfig [("FlowName", "f")]).map Dimension.name).Nodup :=
  ⟨⟨by decide, by decide, by decide⟩,
    c9_dimension_keys_unique_iff_disjoint envConfig [("FlowName", "f")]
      (by decide) (by decide) (by decide)⟩

/-- C10: the metric-family flags fully gate emission: with
`EnableFlowMetrics` false the three flow handlers return the instance
unchanged (buffer untouched, no sink interaction — handlers never call
the sink at all), and with `EnableModelMetrics` false so does
`OnGenerate`. -/
theorem c10_flags_gate_emission (cw : CloudWatch) (now : Nat)
    (flowName modelID : String) (durationMs tokensUsed : Int) (err : Option String) :
    (cw.config.EnableFlowMetrics = false →
      OnFlowStart cw now flowName = cw ∧
      OnFlowEnd cw now flowName durationMs = cw ∧
      OnFlowError cw now flowName durationMs err = cw) ∧
    (cw.config.EnableModelMetrics = false →
      OnGenerate cw now modelID tokensUsed durationMs = cw) := by
  constructor
  · intro h
    refine ⟨?_, ?_, ?_⟩ <;> simp [OnFlowStart, OnFlowEnd, OnFlowError, h]
  · intro h
    simp [OnGenerate, h]

/-- C10 witness: the gating theorem applied to a concrete instance with
both families disabled. -/
theorem c10_witness :
    (cwFlagsOff.config.EnableFlowMetrics = false ∧
      (OnFlowStart cwFlagsOff 0 "f" = cwFlagsOff ∧
        OnFlowEnd cwFlagsOff 0 "f" 5 = cwFlagsOff ∧
        OnFlowError cwFlagsOff 0 "f" 5 (some "x") = cwFlagsOff)) ∧
    (cwFlagsOff.config.EnableModelMetrics = false ∧
      OnGenerate cwFlagsOff 0 "model" 3 5 = cwFlagsOff) :=
  ⟨⟨rfl, (c10_flags_gate_emission cwFlagsOff 0 "f" "model" 5 3 (some "x")).1 rfl⟩,
    ⟨rfl, (c10_flags_gate_emission cwFlagsOff 0 "f" "model" 5 3 (some "x")).2 rfl⟩⟩

end Genkit
